import Mathlib

/-!
Shallow embedding of the simulation core of
`src/Pygame simulator/one vehicle control.py`:
the `EGO_Car` bicycle-model vehicle, the constant-velocity `O_Car`
agents, the per-tick control policy of `Start.run` (lines 161-185),
the per-tick vehicle updates (lines 187-194) and the termination
check (lines 224-236).  Machine floats are modelled as real numbers.
-/

noncomputable section

open Real

/-- Two-dimensional vector, mirroring `pygame.math.Vector2`. -/
@[ext]
structure Vec2 where
  x : ℝ
  y : ℝ

/-- Python `math.radians`. -/
def radians (d : ℝ) : ℝ := d * (Real.pi / 180)

/-- Python `math.degrees`. -/
def degrees (r : ℝ) : ℝ := r * (180 / Real.pi)

/-- Python `math.copysign` on reals (the magnitude of `x` with the sign of
`y`; `y = 0` counts as positive, as for the float `+0.0`). -/
def copysign (x y : ℝ) : ℝ := if y < 0 then -|x| else |x|

/-- `pygame.math.Vector2.rotate`: counterclockwise rotation by an angle
given in degrees. -/
def Vec2.rotate (v : Vec2) (θ : ℝ) : Vec2 :=
  ⟨v.x * Real.cos (radians θ) - v.y * Real.sin (radians θ),
   v.x * Real.sin (radians θ) + v.y * Real.cos (radians θ)⟩

/-- State of the user-controlled vehicle (class `EGO_Car`, lines 34-45). -/
structure EGO_Car where
  position : Vec2
  velocity : Vec2
  angle : ℝ
  length : ℝ
  max_acceleration : ℝ
  max_steering : ℝ
  max_velocity : ℝ
  brake_deceleration : ℝ
  free_deceleration : ℝ
  acceleration : ℝ
  steering : ℝ

/-- `EGO_Car.__init__` (lines 34-45): initial velocity `(8.31, 0.0)`,
`max_velocity = 13.85`, `brake_deceleration = 5`, `free_deceleration = 1`,
zero initial acceleration and steering. -/
def EGO_Car.init (x y angle length max_steering max_acceleration : ℝ) : EGO_Car :=
  { position := ⟨x, y⟩
    velocity := ⟨8.31, 0.0⟩
    angle := angle
    length := length
    max_acceleration := max_acceleration
    max_steering := max_steering
    max_velocity := 13.85
    brake_deceleration := 5
    free_deceleration := 1
    acceleration := 0.0
    steering := 0.0 }

/-- Lines 55-56 of `EGO_Car.update`: `velocity.x` after integrating the
acceleration and clamping to `[-max_velocity, max_velocity]`. -/
def newVelocity (c : EGO_Car) (dt : ℝ) : ℝ :=
  max (-c.max_velocity) (min (c.velocity.x + c.acceleration * dt) c.max_velocity)

/-- Lines 58-63 of `EGO_Car.update`: the angular velocity, computed from
the (already updated) forward speed `vx`.  Python's `if self.steering:`
tests `steering ≠ 0`. -/
def angularVelocity (c : EGO_Car) (vx : ℝ) : ℝ :=
  if c.steering = 0 then 0
  else vx / (c.length / Real.sin (radians c.steering))

/-- `EGO_Car.update` (lines 47-67): integrate acceleration into velocity,
clamp the forward speed, then advance position by the velocity rotated by
`-angle` and advance the heading by the angular velocity, both scaled by
`dt`. -/
def EGO_Car.update (c : EGO_Car) (dt : ℝ) : EGO_Car :=
  { c with
    position :=
      ⟨c.position.x + (Vec2.rotate ⟨newVelocity c dt, c.velocity.y⟩ (-c.angle)).x * dt,
       c.position.y + (Vec2.rotate ⟨newVelocity c dt, c.velocity.y⟩ (-c.angle)).y * dt⟩
    velocity := ⟨newVelocity c dt, c.velocity.y⟩
    angle := c.angle + degrees (angularVelocity c (newVelocity c dt)) * dt }

/-- State of a non-controlled vehicle (class `O_Car`, lines 70-91). -/
structure O_Car where
  position : Vec2
  velocity : ℝ × ℝ

/-- `O_Car.__init__` (lines 80-82): the stored velocity is `(0, vel)`. -/
def O_Car.init (vel x y : ℝ) : O_Car :=
  { position := ⟨x, y⟩, velocity := (0, vel) }

/-- `O_Car.update` (lines 84-91): `position += velocity * dt`. -/
def O_Car.update (c : O_Car) (dt : ℝ) : O_Car :=
  { c with position := ⟨c.position.x + c.velocity.1 * dt,
                        c.position.y + c.velocity.2 * dt⟩ }

/-- Iterated `O_Car.update` over a list of time deltas. -/
def O_Car.run (c : O_Car) (dts : List ℝ) : O_Car :=
  dts.foldl O_Car.update c

/-- The four boolean control intents read from the keyboard each tick
(`pressed[K_UP]`, `pressed[K_DOWN]`, `pressed[K_RIGHT]`, `pressed[K_LEFT]`). -/
structure Input where
  up : Bool
  down : Bool
  right : Bool
  left : Bool

/-- The all-false control input (no key held). -/
def noInput : Input := ⟨false, false, false, false⟩

/-- Longitudinal control policy of `Start.run` (lines 161-176), before the
clamp of line 177.  `if dt != 0` leaves the acceleration unchanged when
`dt = 0`. -/
def newAcceleration (c : EGO_Car) (dt : ℝ) (inp : Input) : ℝ :=
  if inp.up then
    (if c.velocity.x < 0 then c.brake_deceleration else c.acceleration + 1 * dt)
  else if inp.down then
    (if c.velocity.x > 0 then -1 * c.brake_deceleration else c.acceleration - 1 * dt)
  else
    (if |c.velocity.x| > dt * c.free_deceleration then
      -(copysign c.free_deceleration c.velocity.x)
    else if dt ≠ 0 then -c.velocity.x / dt
    else c.acceleration)

/-- Lateral control policy of `Start.run` (lines 179-184), before the
clamp of line 185: steer-right wins over steer-left, and with neither the
steering resets to `0` immediately. -/
def newSteering (c : EGO_Car) (dt : ℝ) (inp : Input) : ℝ :=
  if inp.right then c.steering - 30 * dt
  else if inp.left then c.steering + 30 * dt
  else 0

/-- The whole per-tick control phase of `Start.run` (lines 161-185):
longitudinal policy clamped to `[-max_acceleration, max_acceleration]`,
lateral policy clamped to `[-max_steering, max_steering]`. -/
def applyControls (c : EGO_Car) (dt : ℝ) (inp : Input) : EGO_Car :=
  { c with
    acceleration :=
      max (-c.max_acceleration) (min (newAcceleration c dt inp) c.max_acceleration)
    steering :=
      max (-c.max_steering) (min (newSteering c dt inp) c.max_steering) }

/-- One full tick of the ego vehicle as performed by `Start.run`:
control phase (lines 161-185) followed by `ecar.update(dt)` (line 188). -/
def egoTick (c : EGO_Car) (dt : ℝ) (inp : Input) : EGO_Car :=
  (applyControls c dt inp).update dt

/-- The vehicles held by the main loop (lines 139-146). -/
structure SimState where
  ecar : EGO_Car
  amu : O_Car
  car1 : O_Car
  car2 : O_Car
  car3 : O_Car
  car4 : O_Car
  car5 : O_Car

/-- Initial scenario state (lines 139-146); `r ∈ [0,1)` stands for
`random.random()`, so the ego starts at `x = 6 + 2r`, `y = 64`,
heading `90`, `length = 4`, `max_steering = 30`, `max_acceleration = 5`. -/
def initSim (r : ℝ) : SimState :=
  { ecar := EGO_Car.init (6 + 2 * r) 64 90 4 30 5
    amu := O_Car.init 8.31 7 70
    car1 := O_Car.init 8.31 3 89
    car2 := O_Car.init 8.31 11.5 20
    car3 := O_Car.init 8.31 7 57
    car4 := O_Car.init 8.31 3 57
    car5 := O_Car.init 8.31 11.5 57 }

/-- One tick of the whole simulation (lines 161-194): apply the control
policy and update the ego with `dt`, update every other vehicle with
`-dt`. -/
def stepSim (s : SimState) (dt : ℝ) (inp : Input) : SimState :=
  { ecar := egoTick s.ecar dt inp
    amu := s.amu.update (-dt)
    car1 := s.car1.update (-dt)
    car2 := s.car2.update (-dt)
    car3 := s.car3.update (-dt)
    car4 := s.car4.update (-dt)
    car5 := s.car5.update (-dt) }

/-- Terminal outcome of a tick.  The source prints `"End of the round"`
for the priority-vehicle exit and `"Crash"` for every other terminal
condition; `OutOfBounds` is listed because the spec names it, but the
source never distinguishes it from a crash. -/
inductive Status where
  | Running : Status
  | Completed : Status
  | Crashed : Status
  | OutOfBounds : Status
deriving DecidableEq

/-- Per-agent proximity test used by the combined end condition
(lines 225-230): `-4 < e.y - o.y < 4` and `-2 < e.x - o.x < 2`. -/
def collide (e o : Vec2) : Prop :=
  (-4 < e.y - o.y ∧ e.y - o.y < 4) ∧ (-2 < e.x - o.x ∧ e.x - o.x < 2)

/-- The combined end condition of lines 224-231, with the disjuncts in
source order: ambulance exit, collision with `amu`, `car3`, `car2`,
`car1`, `car4`, `car5`, and finally the corridor bounds on the ego's
`x`. -/
def endCond (s : SimState) : Prop :=
  s.amu.position.y < 1 ∨
  collide s.ecar.position s.amu.position ∨
  collide s.ecar.position s.car3.position ∨
  collide s.ecar.position s.car2.position ∨
  collide s.ecar.position s.car1.position ∨
  collide s.ecar.position s.car4.position ∨
  collide s.ecar.position s.car5.position ∨
  (s.ecar.position.x > 14.5 ∨ s.ecar.position.x < 0)

instance (e o : Vec2) : Decidable (collide e o) := by
  unfold collide; infer_instance

instance (s : SimState) : Decidable (endCond s) := by
  unfold endCond; infer_instance

/-- The status reported by lines 224-236: when the end condition holds,
`Completed` (`"End of the round"`) if the ambulance has exited, otherwise
`Crashed` (`"Crash"`); when it does not hold the loop keeps running. -/
def evaluate (s : SimState) : Status :=
  if endCond s then
    (if s.amu.position.y < 1 then Status.Completed else Status.Crashed)
  else Status.Running

/-- One requested tick: a time delta and the held control intents. -/
structure Tick where
  dt : ℝ
  inp : Input

/-- The main loop (lines 151-236) over a finite schedule of ticks: each
tick advances every vehicle and then checks the end condition, breaking
out of the loop on the first terminal status. -/
def runTicks (s : SimState) : List Tick → SimState × Status
  | [] => (s, Status.Running)
  | t :: ts =>
    if evaluate (stepSim s t.dt t.inp) = Status.Running then
      runTicks (stepSim s t.dt t.inp) ts
    else (stepSim s t.dt t.inp, evaluate (stepSim s t.dt t.inp))

/-! Projection lemmas for the update functions. -/

@[simp]
lemma EGO_Car.update_position (c : EGO_Car) (dt : ℝ) :
    (c.update dt).position =
      ⟨c.position.x + (Vec2.rotate ⟨newVelocity c dt, c.velocity.y⟩ (-c.angle)).x * dt,
       c.position.y + (Vec2.rotate ⟨newVelocity c dt, c.velocity.y⟩ (-c.angle)).y * dt⟩ := rfl

@[simp]
lemma EGO_Car.update_velocity (c : EGO_Car) (dt : ℝ) :
    (c.update dt).velocity = ⟨newVelocity c dt, c.velocity.y⟩ := rfl

@[simp]
lemma EGO_Car.update_angle (c : EGO_Car) (dt : ℝ) :
    (c.update dt).angle = c.angle + degrees (angularVelocity c (newVelocity c dt)) * dt := rfl

@[simp]
lemma EGO_Car.update_steering (c : EGO_Car) (dt : ℝ) :
    (c.update dt).steering = c.steering := rfl

@[simp]
lemma EGO_Car.update_acceleration (c : EGO_Car) (dt : ℝ) :
    (c.update dt).acceleration = c.acceleration := rfl

@[simp]
lemma EGO_Car.update_max_velocity (c : EGO_Car) (dt : ℝ) :
    (c.update dt).max_velocity = c.max_velocity := rfl

@[simp]
lemma applyControls_acceleration (c : EGO_Car) (dt : ℝ) (inp : Input) :
    (applyControls c dt inp).acceleration =
      max (-c.max_acceleration) (min (newAcceleration c dt inp) c.max_acceleration) := rfl

@[simp]
lemma applyControls_steering (c : EGO_Car) (dt : ℝ) (inp : Input) :
    (applyControls c dt inp).steering =
      max (-c.max_steering) (min (newSteering c dt inp) c.max_steering) := rfl

@[simp]
lemma applyControls_velocity (c : EGO_Car) (dt : ℝ) (inp : Input) :
    (applyControls c dt inp).velocity = c.velocity := rfl

@[simp]
lemma applyControls_position (c : EGO_Car) (dt : ℝ) (inp : Input) :
    (applyControls c dt inp).position = c.position := rfl

@[simp]
lemma applyControls_angle (c : EGO_Car) (dt : ℝ) (inp : Input) :
    (applyControls c dt inp).angle = c.angle := rfl

@[simp]
lemma applyControls_max_velocity (c : EGO_Car) (dt : ℝ) (inp : Input) :
    (applyControls c dt inp).max_velocity = c.max_velocity := rfl

@[simp]
lemma applyControls_max_steering (c : EGO_Car) (dt : ℝ) (inp : Input) :
    (applyControls c dt inp).max_steering = c.max_steering := rfl

@[simp]
lemma applyControls_max_acceleration (c : EGO_Car) (dt : ℝ) (inp : Input) :
    (applyControls c dt inp).max_acceleration = c.max_acceleration := rfl

@[simp]
lemma applyControls_free_deceleration (c : EGO_Car) (dt : ℝ) (inp : Input) :
    (applyControls c dt inp).free_deceleration = c.free_deceleration := rfl

@[simp]
lemma applyControls_brake_deceleration (c : EGO_Car) (dt : ℝ) (inp : Input) :
    (applyControls c dt inp).brake_deceleration = c.brake_deceleration := rfl

@[simp]
lemma ocar_update_position (c : O_Car) (dt : ℝ) :
    (c.update dt).position = ⟨c.position.x + c.velocity.1 * dt,
                              c.position.y + c.velocity.2 * dt⟩ := rfl

@[simp]
lemma ocar_update_velocity (c : O_Car) (dt : ℝ) :
    (c.update dt).velocity = c.velocity := rfl

/-- Clamping to a symmetric interval `[-M, M]` with `0 ≤ M` bounds the
absolute value by `M`. -/
lemma abs_clamp_le (M x : ℝ) (h : 0 ≤ M) : |max (-M) (min x M)| ≤ M := by
  rw [abs_le]
  refine ⟨le_max_left _ _, max_le (by linarith) (min_le_right _ _)⟩

/-- An `O_Car` whose stored lateral velocity is zero keeps its `x`
coordinate across any run. -/
lemma O_Car.run_x_eq (dts : List ℝ) :
    ∀ c : O_Car, c.velocity.1 = 0 → (c.run dts).position.x = c.position.x := by
  induction dts with
  | nil => intro c _; rfl
  | cons d ds ih =>
    intro c hc
    have h1 : (c.update d).velocity.1 = 0 := by simp [hc]
    have h2 : (c.update d).position.x = c.position.x := by simp [hc]
    calc (c.run (d :: ds)).position.x
        = ((c.update d).run ds).position.x := rfl
      _ = (c.update d).position.x := ih _ h1
      _ = c.position.x := h2

@[simp]
lemma Vec2.mk_x (a b : ℝ) : (Vec2.mk a b).x = a := rfl

@[simp]
lemma Vec2.mk_y (a b : ℝ) : (Vec2.mk a b).y = b := rfl

@[simp]
lemma stepSim_ecar (s : SimState) (dt : ℝ) (inp : Input) :
    (stepSim s dt inp).ecar = egoTick s.ecar dt inp := rfl

@[simp]
lemma stepSim_amu (s : SimState) (dt : ℝ) (inp : Input) :
    (stepSim s dt inp).amu = s.amu.update (-dt) := rfl

@[simp]
lemma stepSim_car1 (s : SimState) (dt : ℝ) (inp : Input) :
    (stepSim s dt inp).car1 = s.car1.update (-dt) := rfl

@[simp]
lemma stepSim_car2 (s : SimState) (dt : ℝ) (inp : Input) :
    (stepSim s dt inp).car2 = s.car2.update (-dt) := rfl

@[simp]
lemma stepSim_car3 (s : SimState) (dt : ℝ) (inp : Input) :
    (stepSim s dt inp).car3 = s.car3.update (-dt) := rfl

@[simp]
lemma stepSim_car4 (s : SimState) (dt : ℝ) (inp : Input) :
    (stepSim s dt inp).car4 = s.car4.update (-dt) := rfl

@[simp]
lemma stepSim_car5 (s : SimState) (dt : ℝ) (inp : Input) :
    (stepSim s dt inp).car5 = s.car5.update (-dt) := rfl

/-- Clamping to `[-M, M]` leaves a value already in the interval alone. -/
lemma clamp_eq_self (M x : ℝ) (h : |x| ≤ M) : max (-M) (min x M) = x := by
  rcases abs_le.mp h with ⟨h1, h2⟩
  rw [min_eq_left h2, max_eq_right h1]

/-- Unfolding equation for `runTicks` on a nonempty schedule. -/
lemma runTicks_cons (s : SimState) (t : Tick) (ts : List Tick) :
    runTicks s (t :: ts) =
      if evaluate (stepSim s t.dt t.inp) = Status.Running then
        runTicks (stepSim s t.dt t.inp) ts
      else (stepSim s t.dt t.inp, evaluate (stepSim s t.dt t.inp)) := rfl

/-- Claim C1: after any single tick (control phase plus update) from any
state with nonnegative bound constants, the ego's forward speed, steering
angle and acceleration are within their symmetric bounds; since every
tick of any input sequence is such a tick and the constants are never
mutated, the bounds hold at every tick. -/
theorem ego_tick_bounds (c : EGO_Car) (dt : ℝ) (inp : Input)
    (hv : 0 ≤ c.max_velocity) (hs : 0 ≤ c.max_steering)
    (ha : 0 ≤ c.max_acceleration) :
    |(egoTick c dt inp).velocity.x| ≤ c.max_velocity ∧
    |(egoTick c dt inp).steering| ≤ c.max_steering ∧
    |(egoTick c dt inp).acceleration| ≤ c.max_acceleration := by
  unfold egoTick
  refine ⟨?_, ?_, ?_⟩
  · simp only [EGO_Car.update_velocity, Vec2.mk_x]
    unfold newVelocity
    simp only [applyControls_max_velocity]
    exact abs_clamp_le _ _ hv
  · simp only [EGO_Car.update_steering, applyControls_steering]
    exact abs_clamp_le _ _ hs
  · simp only [EGO_Car.update_acceleration, applyControls_acceleration]
    exact abs_clamp_le _ _ ha

/-- Witness for C1 at the scenario's ego vehicle and `dt = 1`. -/
theorem ego_tick_bounds_witness :
    (0 : ℝ) ≤ (EGO_Car.init 7 64 90 4 30 5).max_velocity ∧
    |(egoTick (EGO_Car.init 7 64 90 4 30 5) 1 noInput).velocity.x| ≤
      (EGO_Car.init 7 64 90 4 30 5).max_velocity :=
  ⟨by norm_num [EGO_Car.init],
   (ego_tick_bounds (EGO_Car.init 7 64 90 4 30 5) 1 noInput
      (by norm_num [EGO_Car.init]) (by norm_num [EGO_Car.init])
      (by norm_num [EGO_Car.init])).1⟩

/-- The scenario of claim C2: ego at `(7, 64)`, the ambulance at
`(7, 67)`, the remaining agents at their scenario positions. -/
def c2state : SimState :=
  { ecar := EGO_Car.init 7 64 90 4 30 5
    amu := O_Car.init 8.31 7 67
    car1 := O_Car.init 8.31 3 89
    car2 := O_Car.init 8.31 11.5 20
    car3 := O_Car.init 8.31 7 57
    car4 := O_Car.init 8.31 3 57
    car5 := O_Car.init 8.31 11.5 57 }

/-- Claim C2: the per-agent proximity flag holds exactly when the
longitudinal separation is under 4 and the lateral separation is under 2,
and with the ego at `(7, 64)` and the ambulance at `(7, 67)` the
evaluator immediately reports a crash. -/
theorem collision_box_exact :
    (∀ e o : Vec2, collide e o ↔ |e.y - o.y| < 4 ∧ |e.x - o.x| < 2) ∧
    evaluate c2state = Status.Crashed := by
  constructor
  · intro e o
    unfold collide
    rw [abs_lt, abs_lt]
  · have hc : collide c2state.ecar.position c2state.amu.position := by
      norm_num [collide, c2state, EGO_Car.init, O_Car.init]
    have hn : ¬ c2state.amu.position.y < 1 := by
      norm_num [c2state, O_Car.init]
    have he : endCond c2state := Or.inr (Or.inl hc)
    unfold evaluate
    rw [if_pos he, if_neg hn]

/-- Claim C3: when the steering is nonzero the update advances the
heading by `degrees(velocity.x * sin(radians(steering)) / length) * dt`
for the post-integration forward speed, and when the steering is zero the
heading is unchanged, whatever the velocity. -/
theorem heading_update_formula (c : EGO_Car) (dt : ℝ) :
    (c.steering ≠ 0 →
      (c.update dt).angle =
        c.angle +
          degrees ((c.update dt).velocity.x * Real.sin (radians c.steering) / c.length) * dt) ∧
    (c.steering = 0 → (c.update dt).angle = c.angle) := by
  constructor
  · intro h
    simp only [EGO_Car.update_angle, EGO_Car.update_velocity, Vec2.mk_x]
    rw [angularVelocity, if_neg h, div_div_eq_mul_div]
  · intro h
    simp only [EGO_Car.update_angle]
    rw [angularVelocity, if_pos h]
    simp [degrees]

/-- Scenario ego vehicle with the steering pinned at `30`. -/
def egoSteer30 : EGO_Car := { EGO_Car.init 7 64 90 4 30 5 with steering := 30 }

/-- Witness for C3: the nonzero-steering branch at steering `30` and the
zero-steering branch at the freshly constructed ego vehicle. -/
theorem heading_update_formula_witness :
    (egoSteer30.steering ≠ 0 ∧
      (egoSteer30.update 1).angle =
        egoSteer30.angle +
          degrees ((egoSteer30.update 1).velocity.x * Real.sin (radians egoSteer30.steering) /
            egoSteer30.length) * 1) ∧
    ((EGO_Car.init 7 64 90 4 30 5).steering = 0 ∧
      ((EGO_Car.init 7 64 90 4 30 5).update 1).angle = (EGO_Car.init 7 64 90 4 30 5).angle) :=
  ⟨⟨by norm_num [egoSteer30, EGO_Car.init],
    (heading_update_formula egoSteer30 1).1 (by norm_num [egoSteer30, EGO_Car.init])⟩,
   ⟨by norm_num [EGO_Car.init],
    (heading_update_formula (EGO_Car.init 7 64 90 4 30 5) 1).2 (by norm_num [EGO_Car.init])⟩⟩

/-- Claim C9: a non-controlled vehicle is constructed with zero stored
lateral velocity, and across any sequence of updates with arbitrary time
deltas its `x` coordinate never changes. -/
theorem ocar_x_constant (vel x y : ℝ) (dts : List ℝ) :
    (O_Car.init vel x y).velocity.1 = 0 ∧
    ((O_Car.init vel x y).run dts).position.x = x := by
  refine ⟨rfl, ?_⟩
  have h := O_Car.run_x_eq dts (O_Car.init vel x y) rfl
  simpa [O_Car.init] using h

/-- Claim C10: holding accelerate and brake together acts exactly like
holding accelerate alone, and holding steer-right and steer-left together
acts exactly like holding steer-right alone. -/
theorem opposing_inputs_precedence (c : EGO_Car) (dt : ℝ) (u d r l : Bool) :
    applyControls c dt ⟨true, true, r, l⟩ = applyControls c dt ⟨true, false, r, l⟩ ∧
    applyControls c dt ⟨u, d, true, true⟩ = applyControls c dt ⟨u, d, true, false⟩ := by
  constructor <;> simp [applyControls, newAcceleration, newSteering]

/-- Claim C5: the priority-vehicle exit condition dominates every other
check (it yields `Completed`, never a crash, whenever it holds, whatever
the other agents' positions), and as soon as a tick produces a
non-`Running` status the loop stops: the remaining schedule is ignored
and the terminal pair is returned. -/
theorem priority_exit_first (s : SimState) (t : Tick) (ts : List Tick) :
    (s.amu.position.y < 1 → evaluate s = Status.Completed) ∧
    (evaluate (stepSim s t.dt t.inp) ≠ Status.Running →
      runTicks s (t :: ts) = (stepSim s t.dt t.inp, evaluate (stepSim s t.dt t.inp))) := by
  constructor
  · intro h
    have he : endCond s := Or.inl h
    unfold evaluate
    rw [if_pos he, if_pos h]
  · intro h
    rw [runTicks_cons, if_neg h]

/-- A state whose priority vehicle has already passed the exit
threshold (`amu` at `y = 0.5`), the other vehicles at their scenario
positions. -/
def c5state : SimState :=
  { ecar := EGO_Car.init 7 64 90 4 30 5
    amu := O_Car.init 8.31 7 0.5
    car1 := O_Car.init 8.31 3 89
    car2 := O_Car.init 8.31 11.5 20
    car3 := O_Car.init 8.31 7 57
    car4 := O_Car.init 8.31 3 57
    car5 := O_Car.init 8.31 11.5 57 }

/-- Witness for C5: with the ambulance at `y = 0.5` the evaluator reports
`Completed`, and a two-tick schedule stops after its first tick. -/
theorem priority_exit_first_witness :
    c5state.amu.position.y < 1 ∧
    evaluate c5state = Status.Completed ∧
    runTicks c5state [⟨0, noInput⟩, ⟨0, noInput⟩] =
      (stepSim c5state 0 noInput, evaluate (stepSim c5state 0 noInput)) := by
  have h1 : c5state.amu.position.y < 1 := by norm_num [c5state, O_Car.init]
  have hstep : (stepSim c5state 0 noInput).amu.position.y < 1 := by
    norm_num [c5state, O_Car.init, O_Car.update]
  have h2 : evaluate (stepSim c5state 0 noInput) ≠ Status.Running := by
    have he : endCond (stepSim c5state 0 noInput) := Or.inl hstep
    unfold evaluate
    rw [if_pos he, if_pos hstep]
    decide
  exact ⟨h1, (priority_exit_first c5state ⟨0, noInput⟩ []).1 h1,
    (priority_exit_first c5state ⟨0, noInput⟩ [⟨0, noInput⟩]).2 h2⟩

/-- A state with the ego past the right corridor bound (`x = 15`), no
agent inside the proximity box, and the priority vehicle still in the
scene. -/
def c6state : SimState :=
  { ecar := EGO_Car.init 15 64 90 4 30 5
    amu := O_Car.init 8.31 7 70
    car1 := O_Car.init 8.31 3 89
    car2 := O_Car.init 8.31 11.5 20
    car3 := O_Car.init 8.31 7 57
    car4 := O_Car.init 8.31 3 57
    car5 := O_Car.init 8.31 11.5 57 }

/-- Counterexample to C6 as stated: with the ego at `x = 15`, outside the
corridor and away from every agent, the evaluator reports `Crashed`
(the source prints `"Crash"`), not a distinct `OutOfBounds` outcome. -/
theorem out_of_bounds_status_cex :
    c6state.ecar.position.x > 14.5 ∧
    evaluate c6state = Status.Crashed ∧
    Status.Crashed ≠ Status.OutOfBounds := by
  have hb : c6state.ecar.position.x > 14.5 := by norm_num [c6state, EGO_Car.init]
  have he : endCond c6state :=
    Or.inr (Or.inr (Or.inr (Or.inr (Or.inr (Or.inr (Or.inr (Or.inl hb)))))))
  have hn : ¬ c6state.amu.position.y < 1 := by norm_num [c6state, O_Car.init]
  refine ⟨hb, ?_, by decide⟩
  unfold evaluate
  rw [if_pos he, if_neg hn]

/-- Claim C6 amended: whenever the ego's `x` leaves the corridor
`[0, 14.5]` and the priority vehicle has not yet exited, the round
terminates with the same `Crashed` outcome as a collision — the source
does not report a distinct `OutOfBounds` status — regardless of the other
agents' positions. -/
theorem out_of_bounds_is_crash (s : SimState)
    (hb : s.ecar.position.x > 14.5 ∨ s.ecar.position.x < 0)
    (hn : ¬ s.amu.position.y < 1) :
    evaluate s = Status.Crashed := by
  have he : endCond s :=
    Or.inr (Or.inr (Or.inr (Or.inr (Or.inr (Or.inr (Or.inr hb))))))
  unfold evaluate
  rw [if_pos he, if_neg hn]

/-- Witness for the amended C6 at the concrete out-of-bounds state. -/
theorem out_of_bounds_is_crash_witness :
    (c6state.ecar.position.x > 14.5 ∨ c6state.ecar.position.x < 0) ∧
    evaluate c6state = Status.Crashed :=
  ⟨Or.inl (by norm_num [c6state, EGO_Car.init]),
   out_of_bounds_is_crash c6state (Or.inl (by norm_num [c6state, EGO_Car.init]))
     (by norm_num [c6state, O_Car.init])⟩

/-- Counterexample to C7 as stated: a tick with `dt = -1` from the
initial scenario state is processed like any other and moves the
ambulance, so vehicle state is advanced and no `InvalidTimestep` error
exists anywhere in the code. -/
theorem negative_dt_no_error_cex :
    (stepSim (initSim 0) (-1) noInput).amu.position.y ≠ (initSim 0).amu.position.y := by
  norm_num [initSim, O_Car.init, O_Car.update]

/-- Claim C7 amended: the loop never validates `dt`; a tick with
`dt < 0` advances the vehicles with that `dt` exactly as the kinematics
prescribe (each constant-velocity agent is updated with `-dt`, so its
`y` strictly increases), and no error is raised. -/
theorem negative_dt_advances_state (s : SimState) (dt : ℝ) (inp : Input)
    (hdt : dt < 0) (hv : 0 < s.amu.velocity.2) :
    (stepSim s dt inp).amu.position.y = s.amu.position.y + s.amu.velocity.2 * (-dt) ∧
    s.amu.position.y < (stepSim s dt inp).amu.position.y := by
  have h : (stepSim s dt inp).amu.position.y = s.amu.position.y + s.amu.velocity.2 * (-dt) := rfl
  refine ⟨h, ?_⟩
  have hp : 0 < s.amu.velocity.2 * (-dt) := mul_pos hv (by linarith)
  rw [h]
  linarith

/-- Witness for the amended C7 at the initial state and `dt = -1`. -/
theorem negative_dt_advances_state_witness :
    (-1 : ℝ) < 0 ∧
    (initSim 0).amu.position.y < (stepSim (initSim 0) (-1) noInput).amu.position.y :=
  ⟨by norm_num,
   (negative_dt_advances_state (initSim 0) (-1) noInput (by norm_num)
      (by norm_num [initSim, O_Car.init])).2⟩

/-- Claim C4: with no accelerate/brake input and a fixed `dt > 0`, the
tick sets the acceleration to `-sign(velocity.x) * free_deceleration`
while `|velocity.x| > dt * free_deceleration`, and otherwise to
`-velocity.x / dt`, which makes the velocity exactly `0` after that tick;
once the velocity is `0`, any further no-input tick keeps it exactly `0`.
The hypotheses on the constants hold for every `EGO_Car` the program
constructs (`free_deceleration = 1`, `max_acceleration = 5`,
`max_velocity = 13.85`). -/
theorem free_decel_exact_stop (c : EGO_Car) (dt : ℝ)
    (hdt : 0 < dt) (hfd : 0 ≤ c.free_deceleration)
    (hfm : c.free_deceleration ≤ c.max_acceleration)
    (hmv : 0 ≤ c.max_velocity) :
    (dt * c.free_deceleration < |c.velocity.x| →
      (egoTick c dt noInput).acceleration =
        -(Real.sign c.velocity.x * c.free_deceleration)) ∧
    (|c.velocity.x| ≤ dt * c.free_deceleration →
      (egoTick c dt noInput).acceleration = -(c.velocity.x / dt) ∧
      (egoTick c dt noInput).velocity.x = 0) ∧
    (c.velocity.x = 0 → (egoTick c dt noInput).velocity.x = 0) := by
  have hdt0 : dt ≠ 0 := ne_of_gt hdt
  have hacc : (egoTick c dt noInput).acceleration =
      max (-c.max_acceleration) (min (newAcceleration c dt noInput) c.max_acceleration) := by
    simp only [egoTick, EGO_Car.update_acceleration, applyControls_acceleration]
  have hna : newAcceleration c dt noInput =
      if dt * c.free_deceleration < |c.velocity.x| then
        -(copysign c.free_deceleration c.velocity.x)
      else -c.velocity.x / dt := by
    simp [newAcceleration, noInput, hdt0]
  have part2 : |c.velocity.x| ≤ dt * c.free_deceleration →
      (egoTick c dt noInput).acceleration = -(c.velocity.x / dt) ∧
      (egoTick c dt noInput).velocity.x = 0 := by
    intro h
    have habs : |(-c.velocity.x / dt)| ≤ c.max_acceleration := by
      rw [abs_div, abs_neg, abs_of_pos hdt, div_le_iff₀ hdt]
      nlinarith
    have haccv : (egoTick c dt noInput).acceleration = -c.velocity.x / dt := by
      rw [hacc, hna, if_neg (not_lt.mpr h), clamp_eq_self _ _ habs]
    constructor
    · rw [haccv, neg_div]
    · have hvx : (egoTick c dt noInput).velocity.x =
          newVelocity (applyControls c dt noInput) dt := by
        simp only [egoTick, EGO_Car.update_velocity, Vec2.mk_x]
      rw [hvx]
      unfold newVelocity
      simp only [applyControls_velocity, applyControls_acceleration,
        applyControls_max_velocity]
      rw [hna, if_neg (not_lt.mpr h), clamp_eq_self _ _ habs,
        div_mul_cancel₀ _ hdt0, add_neg_cancel]
      exact clamp_eq_self _ _ (by rw [abs_zero]; exact hmv)
  refine ⟨?_, part2, fun h => (part2 (by rw [h, abs_zero]; positivity)).2⟩
  intro h
  rw [hacc, hna, if_pos h]
  by_cases hv0 : c.velocity.x < 0
  · rw [copysign, if_pos hv0, abs_of_nonneg hfd, neg_neg,
      clamp_eq_self _ _ (by rw [abs_of_nonneg hfd]; exact hfm),
      Real.sign_of_neg hv0]
    ring
  · push_neg at hv0
    have hvpos : 0 < c.velocity.x := by
      rcases lt_or_eq_of_le hv0 with h1 | h1
      · exact h1
      · exfalso
        rw [← h1, abs_zero] at h
        nlinarith
    rw [copysign, if_neg (not_lt.mpr hv0), abs_of_nonneg hfd,
      clamp_eq_self _ _ (by rw [abs_neg, abs_of_nonneg hfd]; exact hfm),
      Real.sign_of_pos hvpos]
    ring

/-- Witness for C4 at the scenario's ego vehicle (`velocity.x = 8.31`,
`free_deceleration = 1`) and `dt = 1`: the fast branch applies and sets
the acceleration to `-1`. -/
theorem free_decel_exact_stop_witness :
    (0 : ℝ) < 1 ∧
    (1 * (EGO_Car.init 7 64 90 4 30 5).free_deceleration <
        |(EGO_Car.init 7 64 90 4 30 5).velocity.x| →
      (egoTick (EGO_Car.init 7 64 90 4 30 5) 1 noInput).acceleration =
        -(Real.sign (EGO_Car.init 7 64 90 4 30 5).velocity.x *
            (EGO_Car.init 7 64 90 4 30 5).free_deceleration)) :=
  ⟨by norm_num,
   (free_decel_exact_stop (EGO_Car.init 7 64 90 4 30 5) 1 (by norm_num)
      (by norm_num [EGO_Car.init]) (by norm_num [EGO_Car.init])
      (by norm_num [EGO_Car.init])).1⟩

/-- Claim C8: a tick with `dt = 0`, under any control input, leaves the
position, heading and velocity of the ego and the position of every
constant-velocity agent unchanged, and the terminal check of that tick is
the evaluation of the unchanged poses.  The velocity hypothesis holds for
every reachable state since the update clamps `velocity.x` each tick. -/
theorem zero_dt_tick_noop (s : SimState) (inp : Input)
    (hv : |s.ecar.velocity.x| ≤ s.ecar.max_velocity) :
    (stepSim s 0 inp).ecar.position = s.ecar.position ∧
    (stepSim s 0 inp).ecar.angle = s.ecar.angle ∧
    (stepSim s 0 inp).ecar.velocity = s.ecar.velocity ∧
    (stepSim s 0 inp).amu.position = s.amu.position ∧
    (stepSim s 0 inp).car1.position = s.car1.position ∧
    (stepSim s 0 inp).car2.position = s.car2.position ∧
    (stepSim s 0 inp).car3.position = s.car3.position ∧
    (stepSim s 0 inp).car4.position = s.car4.position ∧
    (stepSim s 0 inp).car5.position = s.car5.position ∧
    (stepSim s 0 inp).ecar.position.x = s.ecar.position.x ∧
    evaluate (stepSim s 0 inp) = evaluate s := by
  have hpos : (stepSim s 0 inp).ecar.position = s.ecar.position := by
    simp only [stepSim_ecar, egoTick, EGO_Car.update_position, applyControls_position,
      mul_zero, add_zero]
  have hang : (stepSim s 0 inp).ecar.angle = s.ecar.angle := by
    simp only [stepSim_ecar, egoTick, EGO_Car.update_angle, applyControls_angle,
      mul_zero, add_zero]
  have hvel : (stepSim s 0 inp).ecar.velocity = s.ecar.velocity := by
    simp only [stepSim_ecar, egoTick, EGO_Car.update_velocity]
    unfold newVelocity
    simp only [applyControls_velocity, applyControls_acceleration,
      applyControls_max_velocity, mul_zero, add_zero]
    rw [clamp_eq_self _ _ hv]
  have hamu : (stepSim s 0 inp).amu.position = s.amu.position := by
    simp only [stepSim_amu, ocar_update_position, neg_zero, mul_zero, add_zero]
  have hcar1 : (stepSim s 0 inp).car1.position = s.car1.position := by
    simp only [stepSim_car1, ocar_update_position, neg_zero, mul_zero, add_zero]
  have hcar2 : (stepSim s 0 inp).car2.position = s.car2.position := by
    simp only [stepSim_car2, ocar_update_position, neg_zero, mul_zero, add_zero]
  have hcar3 : (stepSim s 0 inp).car3.position = s.car3.position := by
    simp only [stepSim_car3, ocar_update_position, neg_zero, mul_zero, add_zero]
  have hcar4 : (stepSim s 0 inp).car4.position = s.car4.position := by
    simp only [stepSim_car4, ocar_update_position, neg_zero, mul_zero, add_zero]
  have hcar5 : (stepSim s 0 inp).car5.position = s.car5.position := by
    simp only [stepSim_car5, ocar_update_position, neg_zero, mul_zero, add_zero]
  have hiff : endCond (stepSim s 0 inp) ↔ endCond s := by
    unfold endCond collide
    rw [hpos, hamu, hcar1, hcar2, hcar3, hcar4, hcar5]
  have hy : (stepSim s 0 inp).amu.position.y = s.amu.position.y := by rw [hamu]
  refine ⟨hpos, hang, hvel, hamu, hcar1, hcar2, hcar3, hcar4, hcar5, by rw [hpos], ?_⟩
  unfold evaluate
  exact if_congr hiff (if_congr (by rw [hy]) rfl rfl) rfl

/-- Witness for C8 at the initial scenario state with every key held. -/
theorem zero_dt_tick_noop_witness :
    |(initSim 0).ecar.velocity.x| ≤ (initSim 0).ecar.max_velocity ∧
    evaluate (stepSim (initSim 0) 0 ⟨true, true, true, true⟩) = evaluate (initSim 0) :=
  ⟨by norm_num [initSim, EGO_Car.init, abs_le],
   (zero_dt_tick_noop (initSim 0) ⟨true, true, true, true⟩
      (by norm_num [initSim, EGO_Car.init, abs_le])).2.2.2.2.2.2.2.2.2.2⟩
